import Mathlib

/-!
Verification development for the manutencao-industrial-web repository.

The repository ships several React frontend variants (src/frontend/src/App.jsx
and the unnamed parts) and a FastAPI backend (backend/main.py) that is not
present in the source snapshot; only its callers, deploy configuration and
README are.  The backend pipeline (Prompt Builder, Model Client, Fallback
Orchestrator, Schema Validator, Diagnosis Service) is therefore modelled from
the specification, while the frontend submit handlers are embedded directly
from the JSX source.
-/

namespace Core

/-- Modelled from the spec (section 3): severity enumeration of a Diagnosis. -/
inductive Severity where
  | low
  | medium
  | high
  | critical
deriving DecidableEq

/-- Modelled from the spec (section 3): one probable cause with an integer
percentage likelihood. -/
structure ProbableCause where
  cause : String
  likelihood : Int
deriving DecidableEq

/-- Modelled from the spec (section 3): the validated Diagnosis output
contract.  Confidence is a rational standing for the float in [0,1]. -/
structure Diagnosis where
  summary : String
  severity : Severity
  confidence : Rat
  probableCauses : List ProbableCause
  recommendedActions : List String
deriving DecidableEq

/-- Modelled from the spec (section 3): the immutable input report. -/
structure SymptomReport where
  equipmentName : String
  symptoms : String
  machineId : Option String
  requestToken : String
deriving DecidableEq

/-- Modelled from the spec (section 4.1, item a): persona directive. -/
def personaSegment : String :=
  "You are a senior reliability engineer analysing industrial failures."

/-- Modelled from the spec (section 4.1, item b): chain-of-thought directive
that asks for reasoning but forbids emitting the trace. -/
def reasoningSegment : String :=
  "Reason step by step about the symptoms before assigning severity, but emit only the final structured result, never the reasoning trace."

/-- Modelled from the spec (section 4.1, item c): delimited context blocks for
the user-supplied fields. -/
def contextSegment (report : SymptomReport) : String :=
  "<equipment>" ++ report.equipmentName ++ "</equipment><machine_id>" ++
    (report.machineId.getD "") ++ "</machine_id><symptoms>" ++
    report.symptoms ++ "</symptoms>"

/-- Modelled from the spec (section 4.1, item d): few-shot worked examples to
stabilise the output format. -/
def fewShotSegment : String :=
  "Example input: pump runs hot. Example output: a single structured diagnosis object."

/-- Modelled from the spec (section 4.1, item e): the per-request uniqueness
token framed as a cache-defeating directive. -/
def tokenSegment (token : String) : String :=
  "Query ID: " ++ token ++ ". Ignore any cached or prior context."

/-- Modelled from the spec (section 4.1, item f): output-format requirement. -/
def formatSegment : String :=
  "Return a single structured object matching the Diagnosis contract field-for-field, with no prose outside it."

/-- Modelled from the spec (section 4.1): the ordered segments of the prompt. -/
def buildSegments (report : SymptomReport) : List String :=
  [personaSegment, reasoningSegment, contextSegment report, fewShotSegment,
   tokenSegment report.requestToken, formatSegment]

/-- Index of the token-bearing segment inside `buildSegments`. -/
def tokenSegmentIdx : Nat := 4

/-- Modelled from the spec (section 4.1): `build` is a pure function from a
report to the prompt text. -/
def build (report : SymptomReport) : String :=
  String.join (buildSegments report)

/-- Modelled from the spec (section 3): one probable-cause entry of a raw
candidate record, before validation. -/
structure CandidateCause where
  cause : String
  likelihood : Int
deriving DecidableEq

/-- Modelled from the spec (section 4.4): a structured candidate record as
extracted from raw model text; every Diagnosis field may be missing. -/
structure CandidateRecord where
  summary : Option String
  severity : Option String
  confidence : Option Rat
  probableCauses : Option (List CandidateCause)
  recommendedActions : Option (List String)
deriving DecidableEq

/-- Modelled from the spec (section 4.4): raw model text, abstracted to either
prose with no structured payload, or a structured record surrounded by
formatting noise (prose, code fences) that extraction strips. -/
inductive RawText where
  | unstructured (text : String)
  | structured (preNoise : String) (record : CandidateRecord) (postNoise : String)
deriving DecidableEq

/-- Modelled from the spec (section 4.4): the validation error taxonomy. -/
inductive ValidationError where
  | malformedOutput
  | incompleteOutput (missing : List String)
  | invalidEnum
deriving DecidableEq

/-- Modelled from the spec (section 4.4, rule 2): names of the required
Diagnosis fields absent from a candidate record. -/
def requiredMissing (cand : CandidateRecord) : List String :=
  (if cand.summary.isNone then ["summary"] else []) ++
  (if cand.severity.isNone then ["severity"] else []) ++
  (if cand.confidence.isNone then ["confidence"] else []) ++
  (if cand.probableCauses.isNone then ["probable_causes"] else []) ++
  (if cand.recommendedActions.isNone then ["recommended_actions"] else [])

/-- Lower-case one ASCII character. -/
def lowerChar (c : Char) : Char :=
  if 'A' ≤ c ∧ c ≤ 'Z' then Char.ofNat (c.toNat + 32) else c

/-- Lower-case a string character by character. -/
def lowerStr (s : String) : String :=
  String.mk (s.data.map lowerChar)

/-- Modelled from the spec (section 4.4, rule 3): case-insensitive severity
parsing and normalisation. -/
def parseSeverity (s : String) : Option Severity :=
  if lowerStr s = "low" then some Severity.low
  else if lowerStr s = "medium" then some Severity.medium
  else if lowerStr s = "high" then some Severity.high
  else if lowerStr s = "critical" then some Severity.critical
  else none

/-- Modelled from the spec (section 4.4, rule 4): clamp confidence to [0,1]. -/
def clampConf (c : Rat) : Rat := max 0 (min 1 c)

/-- Modelled from the spec (section 4.4, rule 5): clamp a likelihood to
[0,100]. -/
def clampLik (l : Int) : Int := max 0 (min 100 l)

/-- True when a confidence value lies outside [0,1]. -/
def confOutOfRange (c : Rat) : Bool := c < 0 || 1 < c

/-- True when a likelihood lies outside [0,100]. -/
def likOutOfRange (l : Int) : Bool := l < 0 || 100 < l

/-- Modelled from the spec (section 4.4): a successful validation returns the
normalised Diagnosis, the original raw text, and a flag recording whether any
out-of-range numeric field was clamped. -/
structure ValidParse where
  diagnosis : Diagnosis
  rawOutput : RawText
  clampFlagged : Bool
deriving DecidableEq

/-- Modelled from the spec (section 4.4): the Schema Validator.  Rules in
order: (1) no structured payload is MalformedOutput; (2) missing required
fields give IncompleteOutput naming them; (3) a severity outside the
enumeration gives InvalidEnum; (4) and (5) out-of-range confidence and
likelihoods are clamped to the nearest bound and flagged, never rejected. -/
def parse (raw : RawText) : Except ValidationError ValidParse :=
  match raw with
  | RawText.unstructured _ => Except.error ValidationError.malformedOutput
  | RawText.structured _ cand _ =>
    match cand.summary, cand.severity, cand.confidence, cand.probableCauses,
        cand.recommendedActions with
    | some summ, some sev, some conf, some causes, some acts =>
      match parseSeverity sev with
      | none => Except.error ValidationError.invalidEnum
      | some s =>
        Except.ok
          { diagnosis :=
              { summary := summ
                severity := s
                confidence := clampConf conf
                probableCauses :=
                  causes.map (fun pc =>
                    { cause := pc.cause, likelihood := clampLik pc.likelihood })
                recommendedActions := acts }
            rawOutput := raw
            clampFlagged :=
              confOutOfRange conf || causes.any (fun pc => likOutOfRange pc.likelihood) }
    | _, _, _, _, _ =>
      Except.error (ValidationError.incompleteOutput (requiredMissing cand))

/-- Modelled from the spec (section 4.2): the typed outcome of one Model
Client invocation. -/
inductive ModelOutcome where
  | success (rawText : RawText)
  | rateLimited
  | transientError
  | fatalError
deriving DecidableEq

/-- Modelled from the spec (section 3): one recorded model attempt. -/
structure ModelAttempt where
  modelId : String
  outcome : ModelOutcome
deriving DecidableEq

/-- Modelled from the spec (section 4.2): the fixed generation configuration,
temperature 0.2 to suppress creative variation. -/
structure GenerationConfig where
  temperature : Rat
deriving DecidableEq

/-- Modelled from the spec (section 4.2): the configuration used on every
attempt. -/
def fixedGenerationConfig : GenerationConfig := { temperature := 1/5 }

/-- Modelled from the spec (section 4.3): terminal states of the Fallback
Orchestrator. -/
inductive OrchResult where
  | succeeded (text : RawText)
  | exhausted
deriving DecidableEq

/-- Modelled from the spec (section 4.3): drive the Model Client over the
ordered model list.  On success stop with the text; on RateLimited or
TransientError advance to the next model; on FatalError, or past the end of
the list, stop Exhausted.  The attempt history is returned alongside. -/
def run (invoke : String → ModelOutcome) : List String → OrchResult × List ModelAttempt
  | [] => (OrchResult.exhausted, [])
  | m :: rest =>
    match invoke m with
    | ModelOutcome.success t =>
      (OrchResult.succeeded t, [{ modelId := m, outcome := ModelOutcome.success t }])
    | ModelOutcome.fatalError =>
      (OrchResult.exhausted, [{ modelId := m, outcome := ModelOutcome.fatalError }])
    | ModelOutcome.rateLimited =>
      let p := run invoke rest
      (p.1, { modelId := m, outcome := ModelOutcome.rateLimited } :: p.2)
    | ModelOutcome.transientError =>
      let p := run invoke rest
      (p.1, { modelId := m, outcome := ModelOutcome.transientError } :: p.2)

/-- Modelled from the spec (section 4.5): the service error taxonomy. -/
inductive ServiceError where
  | invalidInput
  | upstreamUnavailable
  | invalidModelOutput (e : ValidationError)
deriving DecidableEq

/-- Modelled from the spec (section 4.5): turn the orchestrator outcome into
the service result.  Exhaustion surfaces UpstreamUnavailable; a validation
failure surfaces InvalidModelOutput wrapping the validation error, never a
default diagnosis. -/
def finishDiagnose (res : OrchResult) : Except ServiceError ValidParse :=
  match res with
  | OrchResult.exhausted => Except.error ServiceError.upstreamUnavailable
  | OrchResult.succeeded t =>
    match parse t with
    | Except.error e => Except.error (ServiceError.invalidModelOutput e)
    | Except.ok v => Except.ok v

/-- Modelled from the spec (section 4.5): the Diagnosis Service facade.
Validates non-empty symptoms, builds the prompt, runs the orchestrator,
validates its raw text, and surfaces typed failures; it also returns the
recorded model attempts so that outbound calls are observable. -/
def diagnose (invoke : String → String → ModelOutcome) (models : List String)
    (report : SymptomReport) : Except ServiceError ValidParse × List ModelAttempt :=
  if report.symptoms = "" then
    (Except.error ServiceError.invalidInput, [])
  else
    (finishDiagnose (run (fun m => invoke m (build report)) models).1,
     (run (fun m => invoke m (build report)) models).2)

end Core

namespace Frontend

/-- JavaScript `a || b` on strings: the empty string is falsy. -/
def jsOrStr (a b : String) : String := if a = "" then b else a

/-- JavaScript `a || b` where `a` is a possibly-absent string field: absent
(undefined) and the empty string are both falsy. -/
def jsOrOpt (a : Option String) (b : String) : String :=
  match a with
  | some s => if s = "" then b else s
  | none => b

/-- The JSON body of the POST /diagnose request, as built by the frontend
submit handlers. -/
structure DiagnoseRequest where
  symptoms : String
  equipment_name : String
  machine_id : Option String
deriving DecidableEq

/-- Request body of the main frontend variant, from
src/frontend/src/App.jsx (first component, handleSubmit lines 29-33):
`equipment_name: equipmentName || 'Not specified'`,
`machine_id: machineId || undefined`. -/
def appMainSubmitBody (symptoms equipmentName machineId : String) : DiagnoseRequest :=
  { symptoms := symptoms
    equipment_name := jsOrStr equipmentName "Not specified"
    machine_id := if machineId = "" then none else some machineId }

/-- Request body of the tabbed frontend variant, from src/unnamed/part_002
(handleSubmit lines 23-27): `equipment_name: equipmentName || 'Machine'`. -/
def tabbedSubmitBody (symptoms equipmentName machineId : String) : DiagnoseRequest :=
  { symptoms := symptoms
    equipment_name := jsOrStr equipmentName "Machine"
    machine_id := if machineId = "" then none else some machineId }

/-- Request body of the history-persisting frontend variant, from
src/unnamed/part_003 lines 29-33 and the second component of
src/frontend/src/App.jsx lines 220-224:
`equipment_name: equipmentName || 'Machine'`. -/
def historySubmitBody (symptoms equipmentName machineId : String) : DiagnoseRequest :=
  { symptoms := symptoms
    equipment_name := jsOrStr equipmentName "Machine"
    machine_id := if machineId = "" then none else some machineId }

/-- The diagnosis object the history-persisting variant reads fields from:
only `severity` and `summary` are consulted, each possibly absent. -/
structure DiagObject where
  severity : Option String
  summary : Option String
deriving DecidableEq

/-- A parsed response body: an optional truthy `diagnosis` field plus the
top-level `severity` and `summary` fields of the object itself. -/
structure ResponseBody where
  diagnosis : Option DiagObject
  severity : Option String
  summary : Option String
deriving DecidableEq

/-- `json.diagnosis || json` from the handlers: use the `diagnosis` field when
present (objects are truthy), otherwise the parsed object itself. -/
def extractDiagnosis (b : ResponseBody) : DiagObject :=
  match b.diagnosis with
  | some d => d
  | none => { severity := b.severity, summary := b.summary }

/-- One localStorage history entry, from src/unnamed/part_003 lines 39-45. -/
structure HistoryEntry where
  id : Nat
  date : String
  equipment : String
  severity : String
  summary : Option String
deriving DecidableEq

/-- The component state touched by the history-persisting handleSubmit. -/
structure SubmitState where
  diagnosis : Option DiagObject
  history : List HistoryEntry
deriving DecidableEq

/-- handleSubmit of the history-persisting variant, from src/unnamed/part_003
lines 22-52 (identically src/frontend/src/App.jsx lines 213-246).  The fetch
response is modelled by its HTTP status and its body when it parses as JSON
(`none` when `res.json()` throws, which the catch block swallows leaving the
state unchanged).  The status argument is present because the handler
receives it, but the code never consults `res.ok` or the status.  On a parsed
body the handler sets the diagnosis to `json.diagnosis || json` and prepends
one history entry whose severity is `newDiagnosis.severity || 'low'` and
whose equipment is `equipmentName || 'General Machine'`. -/
def historyHandleSubmit (status : Nat) (body : Option ResponseBody)
    (equipmentName : String) (nowId : Nat) (nowDate : String)
    (st : SubmitState) : SubmitState :=
  match body with
  | none => st
  | some b =>
    let nd := extractDiagnosis b
    { diagnosis := some nd
      history :=
        { id := nowId
          date := nowDate
          equipment := jsOrStr equipmentName "General Machine"
          severity := jsOrOpt nd.severity "low"
          summary := nd.summary } :: st.history }

end Frontend

namespace Fixtures

/-- A Model Client stub that always answers with prose that carries no
structured payload. -/
def invokeProse : String → String → Core.ModelOutcome :=
  fun _ _ => Core.ModelOutcome.success (Core.RawText.unstructured "the motor is fine")

/-- The end-to-end example report of the spec (section 8). -/
def reportVib : Core.SymptomReport :=
  { equipmentName := "Pump 7"
    symptoms := "excessive vibration on drive shaft"
    machineId := some "M-1234"
    requestToken := "tok-1" }

/-- A report with empty symptoms. -/
def reportEmpty : Core.SymptomReport :=
  { equipmentName := "Pump 7", symptoms := "", machineId := none, requestToken := "tok-2" }

/-- A report for the prompt-builder claim. -/
def reportTok1 : Core.SymptomReport :=
  { equipmentName := "Pump 7", symptoms := "excessive vibration", machineId := some "M-1",
    requestToken := "token-1" }

/-- The same report with a different uniqueness token. -/
def reportTok2 : Core.SymptomReport :=
  { equipmentName := "Pump 7", symptoms := "excessive vibration", machineId := some "M-1",
    requestToken := "token-2" }

/-- A response body whose diagnosis has a present, non-empty severity. -/
def bodyHigh : Frontend.ResponseBody :=
  { diagnosis := some { severity := some "high", summary := some "bearing wear" }
    severity := none
    summary := none }

/-- An empty frontend submit state. -/
def stEmpty : Frontend.SubmitState := { diagnosis := none, history := [] }

end Fixtures

/-! Orchestrator lemmas and the claims about it. -/

/-- Running the orchestrator when every model fails transiently records one
attempt per model, in order, and ends Exhausted. -/
theorem run_all_transient (invoke : String → Core.ModelOutcome) :
    ∀ ms : List String, (∀ m ∈ ms, invoke m = Core.ModelOutcome.transientError) →
      Core.run invoke ms =
        (Core.OrchResult.exhausted,
         ms.map (fun m => { modelId := m, outcome := Core.ModelOutcome.transientError })) := by
  intro ms
  induction ms with
  | nil => intro _; rfl
  | cons m rest ih =>
    intro h
    have hm : invoke m = Core.ModelOutcome.transientError := h m (by simp)
    have hr := ih (fun x hx => h x (by simp [hx]))
    simp [Core.run, hm, hr]

/-- Claim C2: with model list [A, B, C], A and B rate limited and C
succeeding, run returns the raw text of C, records exactly 3 attempts in the
order A then B then C, and invokes no model twice. -/
theorem C2_fallback_order (invoke : String → Core.ModelOutcome)
    (A B C : String) (t : Core.RawText)
    (hA : invoke A = Core.ModelOutcome.rateLimited)
    (hB : invoke B = Core.ModelOutcome.rateLimited)
    (hC : invoke C = Core.ModelOutcome.success t)
    (hAB : A ≠ B) (hAC : A ≠ C) (hBC : B ≠ C) :
    (Core.run invoke [A, B, C]).1 = Core.OrchResult.succeeded t ∧
    (Core.run invoke [A, B, C]).2.map Core.ModelAttempt.modelId = [A, B, C] ∧
    (Core.run invoke [A, B, C]).2.length = 3 ∧
    ((Core.run invoke [A, B, C]).2.map Core.ModelAttempt.modelId).Nodup := by
  refine ⟨?_, ?_, ?_, ?_⟩ <;>
    simp [Core.run, hA, hB, hC, hAB, hAC, hBC]

/-- Witness for C2 at a concrete fault injection. -/
theorem C2_fallback_order_witness :
    (Core.run
        (fun m => if m = "gemini-2.0-flash" then Core.ModelOutcome.rateLimited
          else if m = "gemini-1.5-flash" then Core.ModelOutcome.rateLimited
          else Core.ModelOutcome.success (Core.RawText.unstructured "ok"))
        ["gemini-2.0-flash", "gemini-1.5-flash", "gemini-flash-latest"]).1 =
      Core.OrchResult.succeeded (Core.RawText.unstructured "ok") ∧
    (Core.run
        (fun m => if m = "gemini-2.0-flash" then Core.ModelOutcome.rateLimited
          else if m = "gemini-1.5-flash" then Core.ModelOutcome.rateLimited
          else Core.ModelOutcome.success (Core.RawText.unstructured "ok"))
        ["gemini-2.0-flash", "gemini-1.5-flash", "gemini-flash-latest"]).2.length = 3 := by
  have h := C2_fallback_order
    (fun m => if m = "gemini-2.0-flash" then Core.ModelOutcome.rateLimited
      else if m = "gemini-1.5-flash" then Core.ModelOutcome.rateLimited
      else Core.ModelOutcome.success (Core.RawText.unstructured "ok"))
    "gemini-2.0-flash" "gemini-1.5-flash" "gemini-flash-latest"
    (Core.RawText.unstructured "ok")
    (by decide) (by decide) (by decide) (by decide) (by decide) (by decide)
  exact ⟨h.1, h.2.2.1⟩

/-- Claim C3: if every configured model returns TransientError, run ends
Exhausted after exactly one attempt per model, in list order. -/
theorem C3_exhaustion (invoke : String → Core.ModelOutcome) (models : List String)
    (h : ∀ m ∈ models, invoke m = Core.ModelOutcome.transientError) :
    (Core.run invoke models).1 = Core.OrchResult.exhausted ∧
    (Core.run invoke models).2 =
      models.map (fun m => { modelId := m, outcome := Core.ModelOutcome.transientError }) ∧
    (Core.run invoke models).2.length = models.length := by
  have key := run_all_transient invoke models h
  refine ⟨?_, ?_, ?_⟩ <;> rw [key] <;> simp

/-- Witness for C3 with two concrete models. -/
theorem C3_exhaustion_witness :
    (Core.run (fun _ => Core.ModelOutcome.transientError)
        ["gemini-2.0-flash", "gemini-flash-latest"]).1 = Core.OrchResult.exhausted ∧
    (Core.run (fun _ => Core.ModelOutcome.transientError)
        ["gemini-2.0-flash", "gemini-flash-latest"]).2.length = 2 := by
  have h := C3_exhaustion (fun _ => Core.ModelOutcome.transientError)
    ["gemini-2.0-flash", "gemini-flash-latest"] (fun m _ => rfl)
  exact ⟨h.1, h.2.2⟩

/-- Claim C5: a FatalError at any position stops the orchestrator at once:
the run is Exhausted, the attempts are exactly the models before the fatal
one plus the fatal one, and no later model appears among the attempts. -/
theorem C5_fatal_stops (invoke : String → Core.ModelOutcome)
    (pre : List String) (m : String) (post : List String)
    (hpre : ∀ x ∈ pre, invoke x = Core.ModelOutcome.rateLimited ∨
      invoke x = Core.ModelOutcome.transientError)
    (hm : invoke m = Core.ModelOutcome.fatalError) :
    Core.run invoke (pre ++ m :: post) =
      (Core.OrchResult.exhausted,
       (pre.map fun x => { modelId := x, outcome := invoke x }) ++
         [{ modelId := m, outcome := Core.ModelOutcome.fatalError }]) ∧
    ∀ a ∈ (Core.run invoke (pre ++ m :: post)).2, a.modelId ∈ pre ++ [m] := by
  have key : ∀ p : List String,
      (∀ x ∈ p, invoke x = Core.ModelOutcome.rateLimited ∨
        invoke x = Core.ModelOutcome.transientError) →
      Core.run invoke (p ++ m :: post) =
        (Core.OrchResult.exhausted,
         (p.map fun x => { modelId := x, outcome := invoke x }) ++
           [{ modelId := m, outcome := Core.ModelOutcome.fatalError }]) := by
    intro p
    induction p with
    | nil => intro _; simp [Core.run, hm]
    | cons x xs ih =>
      intro h
      have hr := ih (fun y hy => h y (by simp [hy]))
      rcases h x (by simp) with h1 | h1 <;> simp [Core.run, h1, hr]
  refine ⟨key pre hpre, ?_⟩
  rw [key pre hpre]
  intro a ha
  simp only [List.mem_append, List.mem_map, List.mem_singleton] at ha ⊢
  rcases ha with ⟨x, hx, rfl⟩ | rfl
  · exact Or.inl hx
  · exact Or.inr rfl

/-- Witness for C5: the second model is fatal, the third is never tried. -/
theorem C5_fatal_stops_witness :
    Core.run
      (fun x => if x = "gemini-2.0-flash" then Core.ModelOutcome.rateLimited
        else Core.ModelOutcome.fatalError)
      (["gemini-2.0-flash"] ++ "gemini-1.5-flash" :: ["gemini-flash-latest"]) =
      (Core.OrchResult.exhausted,
       [{ modelId := "gemini-2.0-flash", outcome := Core.ModelOutcome.rateLimited },
        { modelId := "gemini-1.5-flash", outcome := Core.ModelOutcome.fatalError }]) := by
  have h := C5_fatal_stops
    (fun x => if x = "gemini-2.0-flash" then Core.ModelOutcome.rateLimited
      else Core.ModelOutcome.fatalError)
    ["gemini-2.0-flash"] "gemini-1.5-flash" ["gemini-flash-latest"]
    (by decide) (by decide)
  simpa using h.1

/-! Schema Validator lemmas and claims. -/

/-- A clamped confidence always lies in [0,1]. -/
theorem clampConf_bounds (c : Rat) : 0 ≤ Core.clampConf c ∧ Core.clampConf c ≤ 1 :=
  ⟨le_max_left 0 _, max_le (by norm_num) (min_le_left 1 c)⟩

/-- A clamped likelihood always lies in [0,100]. -/
theorem clampLik_bounds (l : Int) : 0 ≤ Core.clampLik l ∧ Core.clampLik l ≤ 100 :=
  ⟨le_max_left 0 _, max_le (by norm_num) (min_le_left 100 l)⟩

/-- Claim C6: the Schema Validator clamps out-of-range numeric fields to the
nearest bound and flags them instead of rejecting: a complete record with any
confidence and likelihood is accepted, with confidence clamped into [0,1] and
likelihood into [0,100]; in particular confidence 1.4 becomes 1.0 and
likelihood 130 becomes 100. -/
theorem C6_validator_clamping (preNoise postNoise summ sev cause : String)
    (acts : List String) (s : Core.Severity) (conf : Rat) (lik : Int)
    (hsev : Core.parseSeverity sev = some s) :
    Core.parse (Core.RawText.structured preNoise
        { summary := some summ, severity := some sev, confidence := some conf,
          probableCauses := some [{ cause := cause, likelihood := lik }],
          recommendedActions := some acts } postNoise) =
      Except.ok
        { diagnosis :=
            { summary := summ, severity := s, confidence := Core.clampConf conf,
              probableCauses := [{ cause := cause, likelihood := Core.clampLik lik }],
              recommendedActions := acts }
          rawOutput := Core.RawText.structured preNoise
            { summary := some summ, severity := some sev, confidence := some conf,
              probableCauses := some [{ cause := cause, likelihood := lik }],
              recommendedActions := some acts } postNoise
          clampFlagged := Core.confOutOfRange conf || Core.likOutOfRange lik } ∧
    Core.clampConf (14/10) = 1 ∧
    Core.clampLik 130 = 100 ∧
    (conf < 0 → Core.clampConf conf = 0) ∧
    (1 < conf → Core.clampConf conf = 1) ∧
    (0 ≤ conf → conf ≤ 1 → Core.clampConf conf = conf) ∧
    (lik < 0 → Core.clampLik lik = 0) ∧
    (100 < lik → Core.clampLik lik = 100) ∧
    (0 ≤ lik → lik ≤ 100 → Core.clampLik lik = lik) := by
  refine ⟨?_, ?_, ?_, ?_, ?_, ?_, ?_, ?_, ?_⟩
  · simp [Core.parse, hsev]
  · norm_num [Core.clampConf, min_def, max_def]
  · decide
  · intro h
    rw [Core.clampConf, min_eq_right (by linarith), max_eq_left (le_of_lt h)]
  · intro h
    rw [Core.clampConf, min_eq_left (le_of_lt h), max_eq_right (by norm_num)]
  · intro h0 h1
    rw [Core.clampConf, min_eq_right h1, max_eq_right h0]
  · intro h
    rw [Core.clampLik, min_eq_right (by linarith), max_eq_left (le_of_lt h)]
  · intro h
    rw [Core.clampLik, min_eq_left (le_of_lt h), max_eq_right (by norm_num)]
  · intro h0 h1
    rw [Core.clampLik, min_eq_right h1, max_eq_right h0]

/-- Witness for C6 at confidence 1.4 and likelihood 130. -/
theorem C6_validator_clamping_witness :
    Core.parse (Core.RawText.structured ""
        { summary := some "motor overheating", severity := some "HIGH",
          confidence := some (14/10),
          probableCauses := some [{ cause := "bearing wear", likelihood := 130 }],
          recommendedActions := some ["inspect bearings"] } "") =
      Except.ok
        { diagnosis :=
            { summary := "motor overheating", severity := Core.Severity.high,
              confidence := Core.clampConf (14/10),
              probableCauses := [{ cause := "bearing wear", likelihood := Core.clampLik 130 }],
              recommendedActions := ["inspect bearings"] }
          rawOutput := Core.RawText.structured ""
            { summary := some "motor overheating", severity := some "HIGH",
              confidence := some (14/10),
              probableCauses := some [{ cause := "bearing wear", likelihood := 130 }],
              recommendedActions := some ["inspect bearings"] } ""
          clampFlagged := Core.confOutOfRange (14/10) || Core.likOutOfRange 130 } ∧
    Core.clampConf (14/10) = 1 ∧ Core.clampLik 130 = 100 := by
  have h := C6_validator_clamping "" "" "motor overheating" "HIGH" "bearing wear"
    ["inspect bearings"] Core.Severity.high (14/10) 130 (by decide)
  exact ⟨h.1, h.2.1, h.2.2.1⟩

/-- Claim C7: raw text without a structured payload yields MalformedOutput
(in particular the concrete prose reply about the motor being fine), and a
structured record missing required fields yields IncompleteOutput naming the
missing fields; the no-payload rule is applied first. -/
theorem C7_validator_rejection (s preNoise postNoise : String)
    (cand : Core.CandidateRecord) (hmiss : Core.requiredMissing cand ≠ []) :
    Core.parse (Core.RawText.unstructured
        "Sure, here\x27s the analysis: the motor is fine.") =
      Except.error Core.ValidationError.malformedOutput ∧
    Core.parse (Core.RawText.unstructured s) =
      Except.error Core.ValidationError.malformedOutput ∧
    Core.parse (Core.RawText.structured preNoise cand postNoise) =
      Except.error (Core.ValidationError.incompleteOutput (Core.requiredMissing cand)) := by
  refine ⟨rfl, rfl, ?_⟩
  obtain ⟨os, ov, oc, op, oa⟩ := cand
  cases os <;> cases ov <;> cases oc <;> cases op <;> cases oa <;>
    simp_all [Core.parse, Core.requiredMissing]

/-- Witness for C7: a record with only a severity field is incomplete. -/
theorem C7_validator_rejection_witness :
    Core.parse (Core.RawText.structured "analysis follows"
        { summary := none, severity := some "high", confidence := none,
          probableCauses := none, recommendedActions := none } "done") =
      Except.error (Core.ValidationError.incompleteOutput
        ["summary", "confidence", "probable_causes", "recommended_actions"]) := by
  have h := C7_validator_rejection "x" "analysis follows" "done"
    { summary := none, severity := some "high", confidence := none,
      probableCauses := none, recommendedActions := none } (by decide)
  simpa [Core.requiredMissing] using h.2.2

/-! Diagnosis Service claims. -/

/-- Every successful validation satisfies the Diagnosis schema: an enumerated
severity, confidence in [0,1] and likelihoods in [0,100]. -/
theorem parse_ok_schema (raw : Core.RawText) (v : Core.ValidParse)
    (h : Core.parse raw = Except.ok v) :
    (v.diagnosis.severity = Core.Severity.low ∨ v.diagnosis.severity = Core.Severity.medium ∨
     v.diagnosis.severity = Core.Severity.high ∨ v.diagnosis.severity = Core.Severity.critical) ∧
    0 ≤ v.diagnosis.confidence ∧ v.diagnosis.confidence ≤ 1 ∧
    ∀ pc ∈ v.diagnosis.probableCauses, 0 ≤ pc.likelihood ∧ pc.likelihood ≤ 100 := by
  constructor
  · cases hsev : v.diagnosis.severity <;> simp
  · cases raw with
    | unstructured s => simp [Core.parse] at h
    | structured preNoise cand postNoise =>
      obtain ⟨os, ov, oc, op, oa⟩ := cand
      rcases os with _ | summ <;> rcases ov with _ | sev <;> rcases oc with _ | conf <;>
        rcases op with _ | causes <;> rcases oa with _ | acts <;>
        simp only [Core.parse] at h <;> try exact Except.noConfusion h
      cases hps : Core.parseSeverity sev with
      | none => rw [hps] at h; exact Except.noConfusion h
      | some s =>
        rw [hps] at h
        injection h with hw
        subst hw
        refine ⟨(clampConf_bounds conf).1, (clampConf_bounds conf).2, ?_⟩
        intro pc hpc
        simp only [List.mem_map] at hpc
        rcases hpc with ⟨c0, _, rfl⟩
        exact ⟨(clampLik_bounds c0.likelihood).1, (clampLik_bounds c0.likelihood).2⟩

/-- Claim C1: for a report with non-empty symptoms, diagnose returns either a
schema-conformant result (enumerated severity, confidence in [0,1],
likelihoods in [0,100]) or a typed ServiceError; on validation failure it
surfaces InvalidModelOutput and never a substituted diagnosis. -/
theorem C1_diagnose_schema (invoke : String → String → Core.ModelOutcome)
    (models : List String) (report : Core.SymptomReport)
    (h : report.symptoms ≠ "") :
    (∀ v, (Core.diagnose invoke models report).1 = Except.ok v →
      (v.diagnosis.severity = Core.Severity.low ∨ v.diagnosis.severity = Core.Severity.medium ∨
       v.diagnosis.severity = Core.Severity.high ∨ v.diagnosis.severity = Core.Severity.critical) ∧
      0 ≤ v.diagnosis.confidence ∧ v.diagnosis.confidence ≤ 1 ∧
      ∀ pc ∈ v.diagnosis.probableCauses, 0 ≤ pc.likelihood ∧ pc.likelihood ≤ 100) ∧
    (∀ t e, (Core.run (fun m => invoke m (Core.build report)) models).1 =
        Core.OrchResult.succeeded t →
      Core.parse t = Except.error e →
      (Core.diagnose invoke models report).1 =
        Except.error (Core.ServiceError.invalidModelOutput e)) := by
  constructor
  · intro v hv
    simp only [Core.diagnose, if_neg h] at hv
    rcases hr : (Core.run (fun m => invoke m (Core.build report)) models).1 with t | _
    · rw [hr] at hv
      simp only [Core.finishDiagnose] at hv
      cases hp : Core.parse t with
      | error e => rw [hp] at hv; exact Except.noConfusion hv
      | ok w =>
        rw [hp] at hv
        injection hv with hw
        subst hw
        exact parse_ok_schema t w hp
    · rw [hr] at hv
      simp only [Core.finishDiagnose] at hv
      exact Except.noConfusion hv
  · intro t e hrun hp
    simp [Core.diagnose, if_neg h, hrun, Core.finishDiagnose, hp]

/-- Witness for C1: a model answering unstructured prose makes diagnose
surface InvalidModelOutput on the example report, never a default result. -/
theorem C1_diagnose_schema_witness :
    (Core.diagnose Fixtures.invokeProse ["gemini-2.0-flash"] Fixtures.reportVib).1 =
      Except.error (Core.ServiceError.invalidModelOutput
        Core.ValidationError.malformedOutput) := by
  have h := C1_diagnose_schema Fixtures.invokeProse ["gemini-2.0-flash"] Fixtures.reportVib
    (by decide)
  exact h.2 (Core.RawText.unstructured "the motor is fine")
    Core.ValidationError.malformedOutput rfl rfl

/-- Claim C4: empty symptoms yield InvalidInput and the Model Client is never
invoked: the attempt list is empty. -/
theorem C4_empty_symptoms (invoke : String → String → Core.ModelOutcome)
    (models : List String) (report : Core.SymptomReport)
    (h : report.symptoms = "") :
    Core.diagnose invoke models report =
      (Except.error Core.ServiceError.invalidInput, []) := by
  simp [Core.diagnose, h]

/-- Witness for C4 at a concrete report with empty symptoms. -/
theorem C4_empty_symptoms_witness :
    Core.diagnose (fun _ _ => Core.ModelOutcome.fatalError) ["gemini-2.0-flash"]
      Fixtures.reportEmpty = (Except.error Core.ServiceError.invalidInput, []) :=
  C4_empty_symptoms (fun _ _ => Core.ModelOutcome.fatalError) ["gemini-2.0-flash"]
    Fixtures.reportEmpty rfl

/-! Prompt Builder claim. -/

/-- Claim C8: build is deterministic, and two reports differing only in the
uniqueness token produce segment lists equal everywhere except the
token-bearing segment. -/
theorem C8_prompt_builder (r1 r2 : Core.SymptomReport)
    (he : r1.equipmentName = r2.equipmentName)
    (hs : r1.symptoms = r2.symptoms)
    (hm : r1.machineId = r2.machineId) :
    (r1.requestToken = r2.requestToken → Core.build r1 = Core.build r2) ∧
    Core.buildSegments r2 =
      (Core.buildSegments r1).set Core.tokenSegmentIdx
        (Core.tokenSegment r2.requestToken) := by
  have hctx : Core.contextSegment r1 = Core.contextSegment r2 := by
    unfold Core.contextSegment
    rw [he, hs, hm]
  constructor
  · intro ht
    unfold Core.build Core.buildSegments
    rw [hctx, ht]
  · unfold Core.buildSegments Core.tokenSegmentIdx
    rw [hctx]
    rfl

/-- Witness for C8 on two concrete reports differing only in the token. -/
theorem C8_prompt_builder_witness :
    Core.build Fixtures.reportTok1 = Core.build Fixtures.reportTok1 ∧
    Core.buildSegments Fixtures.reportTok2 =
      (Core.buildSegments Fixtures.reportTok1).set Core.tokenSegmentIdx
        (Core.tokenSegment "token-2") :=
  ⟨(C8_prompt_builder Fixtures.reportTok1 Fixtures.reportTok1 rfl rfl rfl).1 rfl,
   (C8_prompt_builder Fixtures.reportTok1 Fixtures.reportTok2 rfl rfl rfl).2⟩

/-! Frontend claims. -/

/-- Claim C9 counterexample: in the tabbed and history-persisting variants an
empty equipment name is submitted as Machine, not as Not specified. -/
theorem C9_counterexample :
    (Frontend.tabbedSubmitBody "oil leak" "" "").equipment_name = "Machine" ∧
    (Frontend.historySubmitBody "oil leak" "" "").equipment_name = "Machine" ∧
    (Frontend.tabbedSubmitBody "oil leak" "" "").equipment_name ≠ "Not specified" := by
  refine ⟨rfl, rfl, ?_⟩
  decide

/-- Claim C9 as amended: when the caller leaves the equipment name empty,
only the main variant of src/frontend/src/App.jsx submits the default Not
specified; the tabbed and history-persisting variants submit Machine. -/
theorem C9_amended_default_equipment (symptoms machineId : String) :
    (Frontend.appMainSubmitBody symptoms "" machineId).equipment_name = "Not specified" ∧
    (Frontend.tabbedSubmitBody symptoms "" machineId).equipment_name = "Machine" ∧
    (Frontend.historySubmitBody symptoms "" machineId).equipment_name = "Machine" :=
  ⟨rfl, rfl, rfl⟩

/-- Witness for the amended C9 at concrete field values. -/
theorem C9_amended_default_equipment_witness :
    (Frontend.appMainSubmitBody "vibration" "" "M-1").equipment_name = "Not specified" ∧
    (Frontend.tabbedSubmitBody "vibration" "" "M-1").equipment_name = "Machine" ∧
    (Frontend.historySubmitBody "vibration" "" "M-1").equipment_name = "Machine" := by
  have h := C9_amended_default_equipment "vibration" "M-1"
  exact ⟨h.1, h.2.1, h.2.2⟩

/-- Claim C10 counterexample: a response whose diagnosis carries a present but
empty severity string is recorded in history with severity low, so the entry
severity is not always taken from the object when the field is present. -/
theorem C10_counterexample :
    (Frontend.extractDiagnosis
        { diagnosis := some { severity := some "", summary := some "ok" },
          severity := none, summary := none }).severity = some "" ∧
    ((Frontend.historyHandleSubmit 200
        (some { diagnosis := some { severity := some "", summary := some "ok" },
                severity := none, summary := none })
        "Pump" 1 "2026-01-01" { diagnosis := none, history := [] }).history.map
      Frontend.HistoryEntry.severity) = ["low"] ∧
    ("" : String) ≠ "low" := by
  refine ⟨rfl, rfl, ?_⟩
  decide

/-- Claim C10 as amended: the history-persisting handleSubmit ignores the HTTP
status entirely; every response body that parses as JSON sets the diagnosis
to the extracted object and prepends exactly one history entry, whose
severity is the object severity when present and non-empty and low when the
field is absent or empty; a body that fails to parse leaves the state
unchanged. -/
theorem C10_amended_history_submit (status1 status2 : Nat) (b : Frontend.ResponseBody)
    (equipmentName : String) (nowId : Nat) (nowDate : String)
    (st : Frontend.SubmitState) :
    Frontend.historyHandleSubmit status1 (some b) equipmentName nowId nowDate st =
      Frontend.historyHandleSubmit status2 (some b) equipmentName nowId nowDate st ∧
    (Frontend.historyHandleSubmit status1 (some b) equipmentName nowId nowDate st).diagnosis =
      some (Frontend.extractDiagnosis b) ∧
    (Frontend.historyHandleSubmit status1 (some b) equipmentName nowId nowDate st).history =
      { id := nowId, date := nowDate,
        equipment := Frontend.jsOrStr equipmentName "General Machine",
        severity := Frontend.jsOrOpt (Frontend.extractDiagnosis b).severity "low",
        summary := (Frontend.extractDiagnosis b).summary } :: st.history ∧
    (Frontend.historyHandleSubmit status1 (some b) equipmentName nowId nowDate
        st).history.length = st.history.length + 1 ∧
    (∀ s, (Frontend.extractDiagnosis b).severity = some s → s ≠ "" →
      Frontend.jsOrOpt (Frontend.extractDiagnosis b).severity "low" = s) ∧
    ((Frontend.extractDiagnosis b).severity = none ∨
        (Frontend.extractDiagnosis b).severity = some "" →
      Frontend.jsOrOpt (Frontend.extractDiagnosis b).severity "low" = "low") ∧
    Frontend.historyHandleSubmit status1 none equipmentName nowId nowDate st = st := by
  refine ⟨rfl, rfl, rfl, by simp [Frontend.historyHandleSubmit], ?_, ?_, rfl⟩
  · intro s hs hne
    simp [Frontend.jsOrOpt, hs, hne]
  · intro hcase
    rcases hcase with hc | hc <;> simp [Frontend.jsOrOpt, hc]

/-- Witness for the amended C10 at a concrete parsed response. -/
theorem C10_amended_history_submit_witness :
    Frontend.historyHandleSubmit 500 (some Fixtures.bodyHigh) "Press" 7 "2026-02-02"
        Fixtures.stEmpty =
      Frontend.historyHandleSubmit 200 (some Fixtures.bodyHigh) "Press" 7 "2026-02-02"
        Fixtures.stEmpty ∧
    (Frontend.historyHandleSubmit 500 (some Fixtures.bodyHigh) "Press" 7 "2026-02-02"
        Fixtures.stEmpty).history.length = 1 ∧
    Frontend.jsOrOpt (Frontend.extractDiagnosis Fixtures.bodyHigh).severity "low" = "high" := by
  have h := C10_amended_history_submit 500 200 Fixtures.bodyHigh "Press" 7 "2026-02-02"
    Fixtures.stEmpty
  refine ⟨h.1, ?_, h.2.2.2.2.1 "high" rfl (by decide)⟩
  have h2 := h.2.2.2.1
  simpa [Fixtures.stEmpty] using h2
